import Mathlib

/-!
Verification of the ACL parsing and rights-evaluation core of BloodHound.py
(`bloodhound/enumeration/acls.py`).

The development shallowly embeds the source file:
* byte buffers are `List Nat` (each entry one byte, little-endian integers),
* the cstruct-based binary decoders become explicit `Option`-returning
  readers over a buffer and a cursor position,
* the rights evaluator `parse_binary_acl` becomes a pure function returning
  `Except PyErr (String × List Relation)` — Python exceptions raised during
  a single descriptor's evaluation are modelled as the `Except.error` case.

`bloodhound/lib/cstruct` itself is not part of the sources provided, so the
byte-level reading discipline (reads fail when the declared length exceeds
the remaining bytes; a truncated or inconsistent length is a
`MalformedDescriptor` failure) is modelled from the spec; the record
layouts themselves are the `cdef` struct declarations of `acls.py`.
-/

namespace Acls

/-- A byte buffer: a list of byte values. -/
abbrev Bytes := List Nat

/-- Errors a single descriptor evaluation can raise.
`malformedDescriptor` models a decode failure (truncated buffer or
inconsistent declared lengths); `attributeError` models the Python
`AttributeError` raised when the evaluator touches a structurally absent
field (e.g. iterating `sd.dacl.aces` when the DACL is the placeholder
`b''`). -/
inductive PyErr where
  | malformedDescriptor
  | attributeError
deriving DecidableEq, Repr

/-- Decidable equality for evaluation results. -/
instance {ε α : Type} [DecidableEq ε] [DecidableEq α] : DecidableEq (Except ε α) := fun x y =>
  match x, y with
  | .error a, .error b =>
    if h : a = b then .isTrue (congrArg Except.error h)
    else .isFalse fun hc => h (Except.error.inj hc)
  | .ok a, .ok b =>
    if h : a = b then .isTrue (congrArg Except.ok h)
    else .isFalse fun hc => h (Except.ok.inj hc)
  | .error _, .ok _ => .isFalse fun hc => Except.noConfusion hc
  | .ok _, .error _ => .isFalse fun hc => Except.noConfusion hc

/-! ## Access mask and flag constants (`ACCESS_MASK`, `ACE`,
`ACCESS_ALLOWED_OBJECT_ACE` class constants in the source) -/

namespace ACCESS_MASK

def GENERIC_READ : Nat := 0x00020094
def GENERIC_WRITE : Nat := 0x00020028
def GENERIC_EXECUTE : Nat := 0x00020004
def GENERIC_ALL : Nat := 0x000F01FF
def MAXIMUM_ALLOWED : Nat := 0x02000000
def ACCESS_SYSTEM_SECURITY : Nat := 0x01000000
def SYNCHRONIZE : Nat := 0x00100000
def WRITE_OWNER : Nat := 0x00080000
def WRITE_DACL : Nat := 0x00040000
def READ_CONTROL : Nat := 0x00020000
def DELETE : Nat := 0x00010000
def ADS_RIGHT_DS_CONTROL_ACCESS : Nat := 0x00000100
def ADS_RIGHT_DS_CREATE_CHILD : Nat := 0x00000001
def ADS_RIGHT_DS_DELETE_CHILD : Nat := 0x00000002
def ADS_RIGHT_DS_READ_PROP : Nat := 0x00000010
def ADS_RIGHT_DS_WRITE_PROP : Nat := 0x00000020
def ADS_RIGHT_DS_SELF : Nat := 0x00000008

end ACCESS_MASK

/-- `ACCESS_MASK.has_priv`: exact-bit match of `priv` inside `mask`. -/
def has_priv (mask priv : Nat) : Bool := mask &&& priv == priv

/-- `ACE.has_flag` / `ACCESS_ALLOWED_OBJECT_ACE.has_flag`: exact-bit match
of `flag` inside the flags word. -/
def has_flag (flags flag : Nat) : Bool := flags &&& flag == flag

/-- `ACE` class flag constants. -/
def INHERIT_ONLY_ACE : Nat := 0x08

def INHERITED_ACE : Nat := 0x10

/-- `ACCESS_ALLOWED_OBJECT_ACE` class flag constants. -/
def ACE_OBJECT_TYPE_PRESENT : Nat := 0x01

def ACE_INHERITED_OBJECT_TYPE_PRESENT : Nat := 0x02

/-! ## GUID rendering and static GUID tables -/

/-- One uppercase hexadecimal digit. -/
def hexDigit (n : Nat) : Char :=
  if n < 10 then Char.ofNat (48 + n) else Char.ofNat (55 + n)

/-- `n` rendered as `width` uppercase hexadecimal digits (leading zeroes
kept), as produced by Python's `'%0*X' % n`. -/
def toHex (n width : Nat) : String :=
  String.mk ((List.range width).map fun i => hexDigit (n / 16 ^ (width - 1 - i) % 16))

/-- Little-endian 16-bit value at offset `i` of `b`. -/
def leU16 (b : Bytes) (i : Nat) : Nat := b.getD i 0 + 256 * b.getD (i + 1) 0

/-- Little-endian 32-bit value at offset `i` of `b`. -/
def leU32 (b : Bytes) (i : Nat) : Nat :=
  b.getD i 0 + 256 * b.getD (i + 1) 0 + 65536 * b.getD (i + 2) 0 + 16777216 * b.getD (i + 3) 0

/-- Big-endian 16-bit value at offset `i` of `b`. -/
def beU16 (b : Bytes) (i : Nat) : Nat := 256 * b.getD i 0 + b.getD (i + 1) 0

/-- Big-endian 32-bit value at offset `i` of `b`. -/
def beU32 (b : Bytes) (i : Nat) : Nat :=
  16777216 * b.getD i 0 + 65536 * b.getD (i + 1) 0 + 256 * b.getD (i + 2) 0 + b.getD (i + 3) 0

/-- ASCII lowercasing of one character, as Python's `str.lower` acts on
the ASCII GUID strings handled here. -/
def char_lower (c : Char) : Char :=
  if 65 ≤ c.toNat ∧ c.toNat ≤ 90 then Char.ofNat (c.toNat + 32) else c

/-- Python's `str.lower()` on ASCII strings. -/
def str_lower (s : String) : String := String.mk (s.data.map char_lower)

/-- impacket's `bin_to_string`: renders a binary GUID (first three fields
little-endian, last two big-endian) as an uppercase dashed GUID string. -/
def bin_to_string (b : Bytes) : String :=
  toHex (leU32 b 0) 8 ++ "-" ++ toHex (leU16 b 4) 4 ++ "-" ++ toHex (leU16 b 6) 4 ++ "-"
    ++ toHex (beU16 b 8) 4 ++ "-" ++ toHex (beU16 b 10) 4 ++ toHex (beU32 b 12) 8

/-- `EXTRIGHTS_GUID_MAPPING["GetChanges"]`:
`string_to_bin("1131f6aa-9c07-11d1-f79f-00c04fc2dcd2")`. -/
def GetChangesGuid : Bytes :=
  [0xaa, 0xf6, 0x31, 0x11, 0x07, 0x9c, 0xd1, 0x11, 0xf7, 0x9f, 0x00, 0xc0, 0x4f, 0xc2, 0xdc, 0xd2]

/-- `EXTRIGHTS_GUID_MAPPING["GetChangesAll"]`:
`string_to_bin("1131f6ad-9c07-11d1-f79f-00c04fc2dcd2")`. -/
def GetChangesAllGuid : Bytes :=
  [0xad, 0xf6, 0x31, 0x11, 0x07, 0x9c, 0xd1, 0x11, 0xf7, 0x9f, 0x00, 0xc0, 0x4f, 0xc2, 0xdc, 0xd2]

/-- `EXTRIGHTS_GUID_MAPPING["WriteMember"]`:
`string_to_bin("bf9679c0-0de6-11d0-a285-00aa003049e2")`. -/
def WriteMemberGuid : Bytes :=
  [0xc0, 0x79, 0x96, 0xbf, 0xe6, 0x0d, 0xd0, 0x11, 0xa2, 0x85, 0x00, 0xaa, 0x00, 0x30, 0x49, 0xe2]

/-- `EXTRIGHTS_GUID_MAPPING["UserForceChangePassword"]`:
`string_to_bin("00299570-246d-11d0-a768-00aa006e0529")`. -/
def UserForceChangePasswordGuid : Bytes :=
  [0x70, 0x95, 0x29, 0x00, 0x6d, 0x24, 0xd0, 0x11, 0xa7, 0x68, 0x00, 0xaa, 0x00, 0x6e, 0x05, 0x29]

/-- `OBJECTTYPE_GUID_MAP`: objectClass → lowercase schema GUID string. -/
def OBJECTTYPE_GUID_MAP : List (String × String) :=
  [("group", "bf967a9c-0de6-11d0-a285-00aa003049e2"),
   ("domain", "19195a5a-6da0-11d0-afd3-00c04fd930c9"),
   ("organizationalUnit", "bf967aa5-0de6-11d0-a285-00aa003049e2"),
   ("user", "bf967aba-0de6-11d0-a285-00aa003049e2"),
   ("groupPolicyContainer", "f30e3bc2-9ff0-11d1-b603-0000f80367c1")]

/-- `ace_applies`: the (lowercased) GUID string of the ACE matches the
well-known GUID of the entry's object class; an unknown class never
matches (the `KeyError` branch returns `False`). -/
def ace_applies (ace_guid object_class : String) : Bool :=
  match OBJECTTYPE_GUID_MAP.lookup object_class with
  | none => false
  | some our_ace_guid => ace_guid == our_ace_guid

/-! ## Decoded data model -/

/-- Decoded `LDAP_SID` record. -/
structure LdapSid where
  revision : Nat
  subAuthorityCount : Nat
  identifierAuthority : Bytes
  subAuthority : List Nat
deriving DecidableEq, Repr

/-- `LdapSid.__repr__`: `S-{Revision}-{IdentifierAuthority[5]}-{SubAuthority
joined by dashes}`. -/
def sid_repr (s : LdapSid) : String :=
  "S-" ++ toString s.revision ++ "-" ++ toString (s.identifierAuthority.getD 5 0) ++ "-"
    ++ String.intercalate "-" (s.subAuthority.map fun v => toString v)

/-- Decoded `ACCESS_ALLOWED_OBJECT_ACE` body (also used for type 0x06). -/
structure ObjAceData where
  mask : Nat
  flags : Nat
  objectType : Bytes
  inheritedObjectType : Bytes
  sid : LdapSid
deriving DecidableEq, Repr

/-- The typed body attached to an ACE: `ACCESS_ALLOWED_ACE` for types
0x00/0x01, `ACCESS_ALLOWED_OBJECT_ACE` for types 0x05/0x06. -/
inductive AceData where
  | allowed (mask : Nat) (sid : LdapSid)
  | allowedObject (d : ObjAceData)
deriving DecidableEq, Repr

/-- `acedata.mask` (defined on both body classes). -/
def AceData.mask : AceData → Nat
  | .allowed m _ => m
  | .allowedObject d => d.mask

/-- `acedata.sid` (defined on both body classes). -/
def AceData.sid : AceData → LdapSid
  | .allowed _ s => s
  | .allowedObject d => d.sid

/-- Decoded `ACE` record: the generic 4-byte header fields plus the typed
body (`none` for the unsupported ACE types). -/
structure ACE where
  aceType : Nat
  aceFlags : Nat
  acedata : Option AceData
deriving DecidableEq, Repr

/-- Decoded `ACL` record. -/
structure ACLRec where
  aclRevision : Nat
  sbz1 : Nat
  aclSize : Nat
  aceCount : Nat
  sbz2 : Nat
  data : Bytes
  aces : List ACE
deriving DecidableEq, Repr

/-- Decoded `SECURITY_DESCRIPTOR` header. -/
structure SDHeader where
  revision : Nat
  sbz1 : Nat
  control : Nat
  offsetOwner : Nat
  offsetGroup : Nat
  offsetSacl : Nat
  offsetDacl : Nat
deriving DecidableEq, Repr

/-- Decoded `SecurityDescriptor` object: a zero offset leaves the
corresponding field absent (the source keeps the placeholder `b''`). -/
structure SD where
  descriptor : SDHeader
  owner_sid : Option LdapSid
  group_sid : Option LdapSid
  sacl : Option ACLRec
  dacl : Option ACLRec
deriving DecidableEq, Repr

/-- One emitted relation edge, as built by `build_relation`. -/
structure Relation where
  rightname : String
  sid : String
  acetype : String
deriving DecidableEq, Repr

/-- `build_relation(sid, relation, acetype='')`. -/
def build_relation (sid relation acetype : String) : Relation :=
  ⟨relation, sid, acetype⟩

/-- The SIDs ignored by the evaluator (Creator Owner, Local System). -/
def ignoresids : List String := ["S-1-3-0", "S-1-5-18"]

/-! ## Rights evaluator (`parse_binary_acl` and helpers) -/

/-- `can_write_property`: the ACE grants `ADS_RIGHT_DS_WRITE_PROP` and
either carries no `ObjectType` (write access to every property) or its
`ObjectType` equals the given binary property GUID. -/
def can_write_property (mask flags : Nat) (objectType binproperty : Bytes) : Bool :=
  if ¬ has_priv mask ACCESS_MASK.ADS_RIGHT_DS_WRITE_PROP then false
  else if ¬ has_flag flags ACE_OBJECT_TYPE_PRESENT then true
  else objectType == binproperty

/-- `has_extended_right`: the ACE grants `ADS_RIGHT_DS_CONTROL_ACCESS` and
either carries no `ObjectType` (all extended rights) or its `ObjectType`
equals the given binary right GUID. -/
def has_extended_right (mask flags : Nat) (objectType binrightguid : Bytes) : Bool :=
  if ¬ has_priv mask ACCESS_MASK.ADS_RIGHT_DS_CONTROL_ACCESS then false
  else if ¬ has_flag flags ACE_OBJECT_TYPE_PRESENT then true
  else objectType == binrightguid

/-- The property-write and extended-rights blocks of the object-ACE branch
of `parse_binary_acl` (lines 132–152); control falls through to these after
the coarse-rights block unless that block ended in `continue`. -/
def tail_rules (entrytype : String) (mask flags : Nat) (objectType : Bytes) (sid : String) :
    List Relation :=
  (if has_priv mask ACCESS_MASK.ADS_RIGHT_DS_WRITE_PROP then
    (if (entrytype == "user" || entrytype == "group")
        && ! has_flag flags ACE_OBJECT_TYPE_PRESENT then
      [build_relation sid "GenericWrite" ""]
    else [])
    ++ (if entrytype == "group" && can_write_property mask flags objectType WriteMemberGuid then
      [build_relation sid "WriteProperty" "AddMember"]
    else [])
  else [])
  ++ (if has_priv mask ACCESS_MASK.ADS_RIGHT_DS_CONTROL_ACCESS then
    (if (entrytype == "user" || entrytype == "domain")
        && ! has_flag flags ACE_OBJECT_TYPE_PRESENT then
      [build_relation sid "ExtendedRight" "All"]
    else [])
    ++ (if entrytype == "domain" && has_extended_right mask flags objectType GetChangesGuid then
      [build_relation sid "ExtendedRight" "GetChanges"]
    else [])
    ++ (if entrytype == "domain" && has_extended_right mask flags objectType GetChangesAllGuid then
      [build_relation sid "ExtendedRight" "GetChangesAll"]
    else [])
    ++ (if entrytype == "user"
        && has_extended_right mask flags objectType UserForceChangePasswordGuid then
      [build_relation sid "ExtendedRight" "User-Force-Change-Password"]
    else [])
  else [])

/-- The `AceType == 0x05` branch of the DACL walk (lines 88–152).  Each
`continue` of the source becomes an early return of the relations
accumulated so far. -/
def object_ace_relations (entrytype : String) (aceFlags : Nat) (d : ObjAceData) (sid : String) :
    List Relation :=
  if ! has_flag aceFlags INHERITED_ACE && has_flag aceFlags INHERIT_ONLY_ACE then []
  else if has_flag aceFlags INHERITED_ACE
      && has_flag d.flags ACE_INHERITED_OBJECT_TYPE_PRESENT
      && ! ace_applies (str_lower (bin_to_string d.inheritedObjectType)) entrytype then []
  else if has_priv d.mask ACCESS_MASK.GENERIC_ALL || has_priv d.mask ACCESS_MASK.WRITE_DACL
      || has_priv d.mask ACCESS_MASK.WRITE_OWNER || has_priv d.mask ACCESS_MASK.GENERIC_WRITE then
    if has_flag d.flags ACE_OBJECT_TYPE_PRESENT
        && ! ace_applies (str_lower (bin_to_string d.objectType)) entrytype then []
    else if has_priv d.mask ACCESS_MASK.GENERIC_ALL then [build_relation sid "GenericAll" ""]
    else if has_priv d.mask ACCESS_MASK.GENERIC_WRITE && entrytype != "domain" then
      [build_relation sid "GenericWrite" ""]
    else
      (if has_priv d.mask ACCESS_MASK.GENERIC_WRITE then [build_relation sid "GenericWrite" ""]
       else [])
      ++ (if has_priv d.mask ACCESS_MASK.WRITE_DACL then [build_relation sid "WriteDacl" ""]
       else [])
      ++ (if has_priv d.mask ACCESS_MASK.WRITE_OWNER then [build_relation sid "WriteOwner" ""]
       else [])
      ++ tail_rules entrytype d.mask d.flags d.objectType sid
  else tail_rules entrytype d.mask d.flags d.objectType sid

/-- The `AceType == 0x00` branch of the DACL walk (lines 155–175). -/
def plain_ace_relations (entrytype : String) (mask : Nat) (sid : String) : List Relation :=
  if has_priv mask ACCESS_MASK.GENERIC_ALL then [build_relation sid "GenericAll" ""]
  else
    (if has_priv mask ACCESS_MASK.GENERIC_WRITE then [build_relation sid "GenericWrite" ""]
     else [])
    ++ (if has_priv mask ACCESS_MASK.WRITE_OWNER then [build_relation sid "WriteOwner" ""]
     else [])
    ++ (if (entrytype == "user" || entrytype == "domain")
        && has_priv mask ACCESS_MASK.ADS_RIGHT_DS_CONTROL_ACCESS then
      [build_relation sid "ExtendedRight" "All"]
    else [])
    ++ (if has_priv mask ACCESS_MASK.WRITE_DACL then [build_relation sid "WriteDacl" ""]
     else [])

/-- The per-ACE body of the DACL loop of `parse_binary_acl` (lines 78–175):
the relations the loop appends for one ACE.  ACE types other than 0x00 and
0x05 contribute nothing; an ignored subject SID skips the ACE.  A type
0x05 ACE always carries an `allowedObject` body when it comes from the
decoder; the mismatched combinations (unreachable from decoding) yield no
relations. -/
def processAce (entrytype : String) (a : ACE) : List Relation :=
  if a.aceType ≠ 0x05 ∧ a.aceType ≠ 0x00 then []
  else
    match a.acedata with
    | none => []
    | some d =>
      let sid := sid_repr d.sid
      if sid ∈ ignoresids then []
      else
        (if a.aceType = 0x05 then
          match d with
          | .allowed _ _ => []
          | .allowedObject od => object_ace_relations entrytype a.aceFlags od sid
        else [])
        ++ (if a.aceType = 0x00 then plain_ace_relations entrytype d.mask sid else [])

/-- `str(sd.owner_sid)`: the canonical SID string when the owner is
present; when the owner offset was 0 the field holds the placeholder `b''`
and Python 3 renders `str(b'')` as the three-character string `b''`. -/
def owner_str (sd : SD) : String :=
  match sd.owner_sid with
  | some s => sid_repr s
  | none => "b\x27\x27"

/-- Lines 71–179 of `parse_binary_acl`, applied to an already decoded
descriptor: the owner edge, then the DACL walk.  When the DACL is absent
(`sd.dacl = b''`) the iteration over `sd.dacl.aces` raises
`AttributeError`. -/
def evalSd (entry entrytype : String) (sd : SD) : Except PyErr (String × List Relation) :=
  let osid := owner_str sd
  let ownerRels := if osid ∈ ignoresids then [] else [build_relation osid "Owner" ""]
  match sd.dacl with
  | none => .error .attributeError
  | some dacl => .ok (entry, ownerRels ++ dacl.aces.flatMap (processAce entrytype))

/-! ## Binary decoding

Modelled from the spec: `bloodhound/lib/cstruct` (the binary reader the
`cdef` struct declarations are loaded into) is not among the provided
sources.  Per the spec's reader contract, a record read consumes exactly
its declared bytes, variable-length tails are sized by previously decoded
fields, sizing expressions are evaluated left-to-right
(`Flags & 1 * 16` reads `(Flags & 1) * 16`), and a read whose declared
length exceeds the remaining bytes fails (surfacing as
`MalformedDescriptor`).  The layouts themselves follow the `cdef` block of
`acls.py`. -/

/-- Read one byte at cursor `p`; fails past the end of the buffer. -/
def u8 (buf : Bytes) (p : Nat) : Option (Nat × Nat) :=
  if p + 1 ≤ buf.length then some (buf.getD p 0, p + 1) else none

/-- Read a little-endian `uint16` at cursor `p`. -/
def u16 (buf : Bytes) (p : Nat) : Option (Nat × Nat) :=
  if p + 2 ≤ buf.length then some (leU16 buf p, p + 2) else none

/-- Read a little-endian `uint32` at cursor `p`. -/
def u32 (buf : Bytes) (p : Nat) : Option (Nat × Nat) :=
  if p + 4 ≤ buf.length then some (leU32 buf p, p + 4) else none

/-- Read `n` raw bytes at cursor `p`. -/
def readBytes (n : Nat) (buf : Bytes) (p : Nat) : Option (Bytes × Nat) :=
  if p + n ≤ buf.length then some ((buf.drop p).take n, p + n) else none

/-- Read `n` consecutive little-endian `uint32` values. -/
def readU32s : Nat → Bytes → Nat → Option (List Nat × Nat)
  | 0, _, p => some ([], p)
  | n + 1, buf, p => do
    let (v, p) ← u32 buf p
    let (vs, p) ← readU32s n buf p
    some (v :: vs, p)

/-- Decode an `LDAP_SID` record at cursor `p`. -/
def decodeLdapSid (buf : Bytes) (p : Nat) : Option (LdapSid × Nat) := do
  let (rev, p) ← u8 buf p
  let (cnt, p) ← u8 buf p
  let (auth, p) ← readBytes 6 buf p
  let (subs, p) ← readU32s cnt buf p
  some (⟨rev, cnt, auth, subs⟩, p)

/-- Decode the fixed 20-byte `SECURITY_DESCRIPTOR` header at cursor `p`. -/
def decodeSDHeader (buf : Bytes) (p : Nat) : Option (SDHeader × Nat) :=
  if p + 20 ≤ buf.length then
    some (⟨buf.getD p 0, buf.getD (p + 1) 0, leU16 buf (p + 2), leU32 buf (p + 4),
           leU32 buf (p + 8), leU32 buf (p + 12), leU32 buf (p + 16)⟩, p + 20)
  else none

/-- Decode the fixed 8-byte `ACL` header at cursor `p`. -/
def decodeACLHeader (buf : Bytes) (p : Nat) : Option ((Nat × Nat × Nat × Nat × Nat) × Nat) :=
  if p + 8 ≤ buf.length then
    some ((buf.getD p 0, buf.getD (p + 1) 0, leU16 buf (p + 2), leU16 buf (p + 4),
           leU16 buf (p + 6)), p + 8)
  else none

/-- Decode an `ACCESS_ALLOWED_ACE` body from its own sub-buffer. -/
def decodePlainBody (data : Bytes) : Option ((Nat × LdapSid) × Nat) := do
  let (mask, p) ← u32 data 0
  let (sid, p) ← decodeLdapSid data p
  some ((mask, sid), p)

/-- Decode an `ACCESS_ALLOWED_OBJECT_ACE` body from its own sub-buffer:
`uint32 Mask`, `uint32 Flags`, `char ObjectType[Flags & 1 * 16]`,
`char InheritedObjectType[Flags & 2 * 8]`, `LDAP_SID Sid`, with the two
sizing expressions evaluated left-to-right. -/
def decodeObjectBody (data : Bytes) : Option (ObjAceData × Nat) :=
  match u32 data 0 with
  | none => none
  | some (mask, p) =>
    match u32 data p with
    | none => none
    | some (flags, p) =>
      match readBytes ((flags &&& 1) * 16) data p with
      | none => none
      | some (ot, p) =>
        match readBytes ((flags &&& 2) * 8) data p with
        | none => none
        | some (iot, p) =>
          match decodeLdapSid data p with
          | none => none
          | some (sid, p) => some (⟨mask, flags, ot, iot, sid⟩, p)

/-- Decode one `ACE` at cursor `p`: the generic header, its
`AceSize - 4`-byte tail, then the typed body dispatched on `AceType` and
parsed from the tail as its own bounded sub-buffer.  Types other than
0x00/0x01/0x05/0x06 keep no body. -/
def decodeACE (buf : Bytes) (p : Nat) : Option (ACE × Nat) := do
  let (t, p) ← u8 buf p
  let (fl, p) ← u8 buf p
  let (sz, p) ← u16 buf p
  let (body, p) ← readBytes (sz - 4) buf p
  let acedata ←
    if t = 0x00 ∨ t = 0x01 then
      (decodePlainBody body).map fun x => some (AceData.allowed x.1.1 x.1.2)
    else if t = 0x05 ∨ t = 0x06 then
      (decodeObjectBody body).map fun x => some (AceData.allowedObject x.1)
    else some none
  some (⟨t, fl, acedata⟩, p)

/-- Decode `n` consecutive ACEs from the ACL tail sub-buffer. -/
def parseAces : Nat → Bytes → Nat → Option (List ACE × Nat)
  | 0, _, p => some ([], p)
  | n + 1, data, p => do
    let (a, p) ← decodeACE data p
    let (as, p) ← parseAces n data p
    some (a :: as, p)

/-- Decode an `ACL` at cursor `p`: the 8-byte header, its
`AclSize - 8`-byte tail, then exactly `AceCount` ACEs taken from the tail
as its own bounded sub-buffer. -/
def decodeACL (buf : Bytes) (p : Nat) : Option (ACLRec × Nat) :=
  match decodeACLHeader buf p with
  | none => none
  | some ((rev, sbz1, size, count, sbz2), p) =>
    match readBytes (size - 8) buf p with
    | none => none
    | some (data, p) =>
      match parseAces count data 0 with
      | none => none
      | some (aces, _) => some (⟨rev, sbz1, size, count, sbz2, data, aces⟩, p)

/-- Decode an optional sub-record reached through an absolute offset: a
zero offset leaves the field absent, a non-zero offset seeks there and
decodes. -/
def decOpt {α : Type} (off : Nat) (f : Nat → Option (α × Nat)) : Option (Option α) :=
  if off ≠ 0 then (f off).map fun x => some x.1 else some none

/-- `SecurityDescriptor.__init__`: decode the header at the start of the
buffer, then follow each non-zero absolute offset. -/
def decodeSD (buf : Bytes) : Option SD :=
  match decodeSDHeader buf 0 with
  | none => none
  | some (h, _) =>
    match decOpt h.offsetOwner (decodeLdapSid buf) with
    | none => none
    | some owner =>
      match decOpt h.offsetGroup (decodeLdapSid buf) with
      | none => none
      | some group =>
        match decOpt h.offsetSacl (decodeACL buf) with
        | none => none
        | some sacl =>
          match decOpt h.offsetDacl (decodeACL buf) with
          | none => none
          | some dacl => some ⟨h, owner, group, sacl, dacl⟩

/-- `parse_binary_acl(entry, entrytype, acl)`: empty/absent descriptor
bytes short-circuit to an empty edge list; otherwise the descriptor is
decoded (a decode failure is the `MalformedDescriptor` error) and
evaluated. -/
def parse_binary_acl (entry entrytype : String) (acl : Bytes) :
    Except PyErr (String × List Relation) :=
  if acl.isEmpty then .ok (entry, [])
  else
    match decodeSD acl with
    | none => .error .malformedDescriptor
    | some sd => evalSd entry entrytype sd

/-! ## Concrete fixtures used by witnesses and counterexamples -/

/-- A plain, non-ignored subject SID: `S-1-5-21-1-2-3-500`. -/
def sid500 : LdapSid := ⟨1, 5, [0, 0, 0, 0, 0, 5], [21, 1, 2, 3, 500]⟩

/-! ## More fixtures: concrete descriptor buffers -/

/-- A 28-byte descriptor: header with `OffsetOwner = OffsetGroup =
OffsetSacl = 0` and `OffsetDacl = 20`, followed at offset 20 by an empty
ACL (`AclSize = 8`, `AceCount = 0`). -/
def ownerAbsentBuf : Bytes :=
  [1, 0, 0, 0, 0, 0, 0, 0, 0, 0, 0, 0, 0, 0, 0, 0, 20, 0, 0, 0, 2, 0, 8, 0, 0, 0, 0, 0]

/-- A 20-byte descriptor that is just a header with all four offsets 0. -/
def headerOnlyBuf : Bytes :=
  [1, 0, 0, 0, 0, 0, 0, 0, 0, 0, 0, 0, 0, 0, 0, 0, 0, 0, 0, 0]

/-- A 28-byte descriptor whose DACL (at offset 20) declares `AclSize = 8`
— an empty ACE tail — but `AceCount = 1`, so decoding its single ACE must
read past the declared tail. -/
def malAclBuf : Bytes :=
  [1, 0, 0, 0, 0, 0, 0, 0, 0, 0, 0, 0, 0, 0, 0, 0, 20, 0, 0, 0, 2, 0, 8, 0, 1, 0, 0, 0]

/-- A well-formed object ACE body: mask 0, flags 3 (both object types
present), two 16-byte GUID slots, then a minimal SID. -/
def objBodyFixture : Bytes :=
  [0, 0, 0, 0, 3, 0, 0, 0] ++ List.replicate 16 7 ++ List.replicate 16 9
    ++ [1, 0, 0, 0, 0, 0, 0, 5]

/-! ## Helper lemmas -/

/-- Exact-bit match as a per-bit statement. -/
lemma and_submask_iff (m p : Nat) :
    m &&& p = p ↔ ∀ i, p.testBit i = true → m.testBit i = true := by
  constructor
  · intro h i hi
    have h' := congrArg (fun x => Nat.testBit x i) h
    simp only [Nat.testBit_and] at h'
    rw [hi, Bool.and_true] at h'
    exact h'
  · intro h
    apply Nat.eq_of_testBit_eq
    intro i
    rw [Nat.testBit_and]
    cases hp : p.testBit i
    · simp
    · simp [h i hp]

/-- Projection of `build_relation`. -/
@[simp] lemma build_relation_sid (sid relation acetype : String) :
    (build_relation sid relation acetype).sid = sid := rfl

/-- Every relation produced by the property-write/extended-rights blocks
names the ACE's subject SID. -/
lemma tail_rules_sid (et : String) (mask flags : Nat) (ot : Bytes) (sid : String) :
    ∀ r ∈ tail_rules et mask flags ot sid, r.sid = sid := by
  intro r hr
  unfold tail_rules at hr
  split_ifs at hr <;>
    simp only [List.mem_append, List.mem_singleton, List.not_mem_nil, or_false, false_or] at hr <;>
    (repeat' rcases hr with hr | hr) <;>
    simp_all

/-- Every relation produced by the object-ACE branch names the ACE's
subject SID. -/
lemma object_ace_relations_sid (et : String) (f : Nat) (d : ObjAceData) (sid : String) :
    ∀ r ∈ object_ace_relations et f d sid, r.sid = sid := by
  intro r hr
  unfold object_ace_relations at hr
  split_ifs at hr <;>
    (try simp only [List.mem_append, List.mem_singleton, List.not_mem_nil, or_false,
      false_or] at hr) <;>
    (repeat' rcases hr with hr | hr) <;>
    first
    | exact tail_rules_sid et d.mask d.flags d.objectType sid r hr
    | simp_all

/-- Every relation produced by the plain-ACE branch names the ACE's
subject SID. -/
lemma plain_ace_relations_sid (et : String) (mask : Nat) (sid : String) :
    ∀ r ∈ plain_ace_relations et mask sid, r.sid = sid := by
  intro r hr
  unfold plain_ace_relations at hr
  split_ifs at hr <;>
    simp only [List.mem_append, List.mem_singleton, List.not_mem_nil, or_false, false_or] at hr <;>
    (repeat' rcases hr with hr | hr) <;>
    simp_all

/-- The object-ACE branch under a mask containing `GENERIC_ALL`: either a
prior skip makes the ACE contribute nothing, or it contributes exactly the
single `GenericAll` relation. -/
lemma object_ace_relations_genericAll (et : String) (f : Nat) (d : ObjAceData) (sid : String)
    (hga : has_priv d.mask ACCESS_MASK.GENERIC_ALL = true) :
    object_ace_relations et f d sid = [] ∨
      object_ace_relations et f d sid = [build_relation sid "GenericAll" ""] := by
  unfold object_ace_relations
  split_ifs <;> simp_all

/-- The plain-ACE branch under a mask containing `GENERIC_ALL` yields
exactly the single `GenericAll` relation. -/
lemma plain_ace_relations_genericAll (et : String) (mask : Nat) (sid : String)
    (hga : has_priv mask ACCESS_MASK.GENERIC_ALL = true) :
    plain_ace_relations et mask sid = [build_relation sid "GenericAll" ""] := by
  unfold plain_ace_relations
  rw [if_pos hga]

/-- Every relation produced for one ACE names that ACE's subject SID, and
that SID is not in the ignore set. -/
lemma processAce_sid (et : String) (a : ACE) :
    ∀ r ∈ processAce et a, r.sid ∉ ignoresids := by
  intro r hr
  unfold processAce at hr
  by_cases ht : a.aceType ≠ 5 ∧ a.aceType ≠ 0
  · rw [if_pos ht] at hr; exact absurd hr (List.not_mem_nil r)
  · rw [if_neg ht] at hr
    split at hr
    · exact absurd hr (List.not_mem_nil r)
    · rename_i d _
      simp only at hr
      by_cases hs : sid_repr d.sid ∈ ignoresids
      · rw [if_pos hs] at hr; exact absurd hr (List.not_mem_nil r)
      · rw [if_neg hs] at hr
        rcases List.mem_append.mp hr with h | h
        · by_cases h5 : a.aceType = 5
          · rw [if_pos h5] at h
            match d, h with
            | .allowedObject od, h =>
              rw [object_ace_relations_sid et a.aceFlags od _ r h]
              exact hs
          · rw [if_neg h5] at h; exact absurd h (List.not_mem_nil r)
        · by_cases h0 : a.aceType = 0
          · rw [if_pos h0] at h
            rw [plain_ace_relations_sid et d.mask (sid_repr d.sid) r h]
            exact hs
          · rw [if_neg h0] at h; exact absurd h (List.not_mem_nil r)

/-- `List.getD` over an append, within the left part. -/
lemma getD_append_left (a b : Bytes) (n d : Nat) (h : n < a.length) :
    (a ++ b).getD n d = a.getD n d := by
  simp [List.getD_eq_getElem?_getD, List.getElem?_append_left h]

/-- `leU16` over an append, within the left part. -/
lemma leU16_append (a b : Bytes) (i : Nat) (h : i + 2 ≤ a.length) :
    leU16 (a ++ b) i = leU16 a i := by
  unfold leU16
  rw [getD_append_left a b i 0 (by omega), getD_append_left a b (i + 1) 0 (by omega)]

/-- `leU32` over an append, within the left part. -/
lemma leU32_append (a b : Bytes) (i : Nat) (h : i + 4 ≤ a.length) :
    leU32 (a ++ b) i = leU32 a i := by
  unfold leU32
  rw [getD_append_left a b i 0 (by omega), getD_append_left a b (i + 1) 0 (by omega),
    getD_append_left a b (i + 2) 0 (by omega), getD_append_left a b (i + 3) 0 (by omega)]

/-- Decoding the descriptor header never looks beyond its declared 20
bytes: appending bytes after them does not change the result. -/
lemma decodeSDHeader_append (a b : Bytes) (p : Nat) (h : p + 20 ≤ a.length) :
    decodeSDHeader (a ++ b) p = decodeSDHeader a p := by
  unfold decodeSDHeader
  rw [if_pos (by simp only [List.length_append]; omega), if_pos h]
  rw [getD_append_left a b p 0 (by omega), getD_append_left a b (p + 1) 0 (by omega),
    leU16_append a b (p + 2) (by omega), leU32_append a b (p + 4) (by omega),
    leU32_append a b (p + 8) (by omega), leU32_append a b (p + 12) (by omega),
    leU32_append a b (p + 16) (by omega)]

/-- Decoding the ACL header never looks beyond its declared 8 bytes. -/
lemma decodeACLHeader_append (a b : Bytes) (p : Nat) (h : p + 8 ≤ a.length) :
    decodeACLHeader (a ++ b) p = decodeACLHeader a p := by
  unfold decodeACLHeader
  rw [if_pos (by simp only [List.length_append]; omega), if_pos h]
  rw [getD_append_left a b p 0 (by omega), getD_append_left a b (p + 1) 0 (by omega),
    leU16_append a b (p + 2) (by omega), leU16_append a b (p + 4) (by omega),
    leU16_append a b (p + 6) (by omega)]

/-- A zero offset decodes to an absent field. -/
lemma decOpt_zero {α : Type} (f : Nat → Option (α × Nat)) : decOpt 0 f = some none := by
  simp [decOpt]

/-- What a successful `readBytes` returns. -/
lemma readBytes_ok (n : Nat) (buf : Bytes) (p : Nat) (bs : Bytes) (p' : Nat)
    (h : readBytes n buf p = some (bs, p')) :
    bs = (buf.drop p).take n ∧ bs.length = n ∧ p' = p + n := by
  unfold readBytes at h
  split_ifs at h with hb
  cases h
  refine ⟨rfl, ?_, rfl⟩
  rw [List.length_take, List.length_drop]
  omega

/-- What a successful `u32` read returns. -/
lemma u32_ok (buf : Bytes) (p v p' : Nat) (h : u32 buf p = some (v, p')) :
    p' = p + 4 ∧ v = leU32 buf p := by
  unfold u32 at h
  split_ifs at h
  cases h
  exact ⟨rfl, rfl⟩

/-- `readBytes` under an in-bounds cursor. -/
lemma readBytes_le (n : Nat) (buf : Bytes) (p : Nat) (h : p + n ≤ buf.length) :
    readBytes n buf p = some ((buf.drop p).take n, p + n) := by
  unfold readBytes
  rw [if_pos h]

/-- A non-zero offset decodes through the given decoder. -/
lemma decOpt_nonzero {α : Type} (off : Nat) (f : Nat → Option (α × Nat)) (h : off ≠ 0) :
    decOpt off f = (f off).map fun x => some x.1 := by
  simp [decOpt, h]

/-! ## Claim theorems -/

/-- C7 (confirmed): `has_priv` holds iff every bit of the right constant is
set in the mask (exact-bit match); `has_flag` obeys the same rule; and
exact match is strictly stronger than a non-zero-intersection test. -/
theorem claim7_theorem :
    (∀ m p : Nat, has_priv m p = true ↔ ∀ i, p.testBit i = true → m.testBit i = true) ∧
    (∀ fl f : Nat, has_flag fl f = true ↔ ∀ i, f.testBit i = true → fl.testBit i = true) ∧
    (∃ m p : Nat, m &&& p ≠ 0 ∧ has_priv m p = false) := by
  refine ⟨?_, ?_, 6, 5, by decide, by decide⟩
  · intro m p
    simp only [has_priv, beq_iff_eq]
    exact and_submask_iff m p
  · intro fl f
    simp only [has_flag, beq_iff_eq]
    exact and_submask_iff fl f

/-- Witness for C7: `GENERIC_WRITE ⊆ mask 0x20028` implies bit 5
(`ADS_RIGHT_DS_WRITE_PROP`) is set there. -/
theorem claim7_witness : Nat.testBit 0x20028 5 = true :=
  (claim7_theorem.1 0x20028 0x20028).mp (by decide) 5 (by decide)

/-- C8 (confirmed): empty/absent descriptor bytes return the identity
unchanged with an empty edge list and no error. -/
theorem claim8_theorem (entry entrytype : String) :
    parse_binary_acl entry entrytype [] = .ok (entry, []) := rfl

/-- C4 (confirmed): if an evaluated ACE's mask contains `GENERIC_ALL`
(exact-bit match) and the ACE contributes any edge at all, it contributes
exactly the single `GenericAll` edge — every other rule for that ACE is
suppressed — for plain (0x00) and object (0x05) ACEs alike (any other ACE
type contributes no edges at all). -/
theorem claim4_theorem (et : String) (t f : Nat) (d : AceData)
    (hga : has_priv d.mask ACCESS_MASK.GENERIC_ALL = true)
    (hne : processAce et ⟨t, f, some d⟩ ≠ []) :
    processAce et ⟨t, f, some d⟩ = [build_relation (sid_repr d.sid) "GenericAll" ""] := by
  unfold processAce at hne ⊢
  dsimp only at hne ⊢
  by_cases ht : t ≠ 5 ∧ t ≠ 0
  · rw [if_pos ht] at hne
    exact absurd rfl hne
  · rw [if_neg ht] at hne ⊢
    by_cases hs : sid_repr d.sid ∈ ignoresids
    · rw [if_pos hs] at hne
      exact absurd rfl hne
    · rw [if_neg hs] at hne ⊢
      by_cases h5 : t = 5
      · subst h5
        rw [if_pos rfl, if_neg (by decide : ¬(5 = 0))] at hne ⊢
        cases d with
        | allowed m s => simp at hne
        | allowedObject od =>
          dsimp only [AceData.sid, AceData.mask] at hga hne ⊢
          rcases object_ace_relations_genericAll et f od (sid_repr od.sid) hga with h | h
          · rw [h] at hne
            simp at hne
          · rw [h]
            rfl
      · have h0 : t = 0 := by tauto
        subst h0
        rw [if_neg h5, if_pos rfl] at hne ⊢
        rw [plain_ace_relations_genericAll et d.mask (sid_repr d.sid) hga]
        rfl

/-- Witness for C4: a plain ACE granting `0x000F01FF` (`GENERIC_ALL`) to
`S-1-5-21-1-2-3-500` on a `user` entry yields exactly `GenericAll`. -/
theorem claim4_witness :
    processAce "user" ⟨0, 0, some (.allowed 0x000F01FF sid500)⟩
      = [build_relation (sid_repr sid500) "GenericAll" ""] :=
  claim4_theorem "user" 0 0 (.allowed 0x000F01FF sid500) (by decide) (by decide)

/-- C3 (code bug): a descriptor whose header has owner offset 0 decodes
with `owner_sid` absent, yet `parse_binary_acl` still emits an `Owner`
edge — its subject is `str(b'')`, the three-character string `b''` — where
the claim requires that no Owner edge be emitted. -/
theorem claim3_theorem :
    (decodeSD ownerAbsentBuf).map (fun sd => (sd.descriptor.offsetOwner, sd.owner_sid))
      = some (0, none) ∧
    parse_binary_acl "entry" "user" ownerAbsentBuf
      = .ok ("entry", [build_relation "b\x27\x27" "Owner" ""]) :=
  ⟨by decide, by decide⟩

/-- C5 (confirmed): whenever evaluation succeeds, no produced edge names
`S-1-3-0` or `S-1-5-18`, whichever way those SIDs occur in the descriptor. -/
theorem claim5_theorem (entry entrytype : String) (acl : Bytes) (out : String × List Relation)
    (hok : parse_binary_acl entry entrytype acl = .ok out) :
    ∀ r ∈ out.2, r.sid ≠ "S-1-3-0" ∧ r.sid ≠ "S-1-5-18" := by
  intro r hr
  unfold parse_binary_acl at hok
  split_ifs at hok with he
  · cases hok
    simp at hr
  · cases hsd : decodeSD acl with
    | none => rw [hsd] at hok; cases hok
    | some sd =>
      rw [hsd] at hok
      simp only [evalSd] at hok
      split at hok
      · cases hok
      · cases hok
        rcases List.mem_append.mp hr with h | h
        · by_cases ho : owner_str sd ∈ ignoresids
          · rw [if_pos ho] at h
            exact absurd h (List.not_mem_nil r)
          · rw [if_neg ho] at h
            rw [List.mem_singleton.mp h]
            simp only [ignoresids, List.mem_cons, List.not_mem_nil, or_false] at ho
            push_neg at ho
            exact ⟨ho.1, ho.2⟩
        · obtain ⟨a, _, hra⟩ := List.mem_flatMap.mp h
          have hni := processAce_sid entrytype a r hra
          simp only [ignoresids, List.mem_cons, List.not_mem_nil, or_false] at hni
          push_neg at hni
          exact ⟨hni.1, hni.2⟩

/-- Witness for C5: applied to the descriptor with an absent owner, whose
only edge is the `Owner` edge with the junk subject `b''`. -/
theorem claim5_witness :
    (build_relation "b\x27\x27" "Owner" "").sid ≠ "S-1-3-0" ∧
    (build_relation "b\x27\x27" "Owner" "").sid ≠ "S-1-5-18" :=
  claim5_theorem "entry" "user" ownerAbsentBuf
    ("entry", [build_relation "b\x27\x27" "Owner" ""]) (by decide)
    (build_relation "b\x27\x27" "Owner" "") (by decide)

/-- C1 (corrected) — counterexample: on a `group` entry, an allow-object
ACE whose mask contains `GENERIC_WRITE` (so the coarse-rights gate fires)
and whose present `ObjectType` is the `WriteMember` GUID (which is not the
`group` class GUID, yet satisfies `can_write_property` for `WriteMember`)
produces no edges at all: the property-write rule is not evaluated, so the
`WriteProperty AddMember` edge the claim predicts is absent. -/
theorem claim1_counterexample :
    has_priv 0x20028 ACCESS_MASK.GENERIC_WRITE = true ∧
    has_flag 1 ACE_OBJECT_TYPE_PRESENT = true ∧
    ace_applies (str_lower (bin_to_string WriteMemberGuid)) "group" = false ∧
    can_write_property 0x20028 1 WriteMemberGuid WriteMemberGuid = true ∧
    processAce "group" ⟨5, 0, some (.allowedObject ⟨0x20028, 1, WriteMemberGuid, [], sid500⟩)⟩
      = [] :=
  ⟨by decide, by decide, by decide, by decide, by decide⟩

/-- C1 (corrected) — amended: for an allow-object ACE whose mask has at
least one coarse right set and whose present `ObjectType` does not match
the entry class's GUID, the source's `continue` skips the whole remaining
evaluation of that ACE (not just the coarse-rights block): the ACE
contributes no edges, so the property-write and extended-right rules never
fire for it. -/
theorem claim1_theorem (et : String) (aceFlags : Nat) (od : ObjAceData)
    (hcoarse : (has_priv od.mask ACCESS_MASK.GENERIC_ALL
      || has_priv od.mask ACCESS_MASK.WRITE_DACL
      || has_priv od.mask ACCESS_MASK.WRITE_OWNER
      || has_priv od.mask ACCESS_MASK.GENERIC_WRITE) = true)
    (hpresent : has_flag od.flags ACE_OBJECT_TYPE_PRESENT = true)
    (hmismatch : ace_applies (str_lower (bin_to_string od.objectType)) et = false) :
    processAce et ⟨5, aceFlags, some (.allowedObject od)⟩ = [] := by
  unfold processAce
  dsimp only [AceData.sid]
  rw [if_neg (show ¬((5 : Nat) ≠ 5 ∧ (5 : Nat) ≠ 0) by simp)]
  by_cases hs : sid_repr od.sid ∈ ignoresids
  · rw [if_pos hs]
  · rw [if_neg hs, if_pos rfl, if_neg (by decide : ¬((5 : Nat) = 0))]
    have hobj : object_ace_relations et aceFlags od (sid_repr od.sid) = [] := by
      unfold object_ace_relations
      split_ifs <;> simp_all
    rw [hobj]
    rfl

/-- Witness for C1 (amended): the counterexample's ACE, via the amended
theorem. -/
theorem claim1_witness :
    processAce "group" ⟨5, 0, some (.allowedObject ⟨0x20028, 1, WriteMemberGuid, [], sid500⟩)⟩
      = [] :=
  claim1_theorem "group" 0 ⟨0x20028, 1, WriteMemberGuid, [], sid500⟩
    (by decide) (by decide) (by decide)

/-- C2 (corrected) — counterexample: a plain (type 0x00) ACE with mask
`GENERIC_WRITE | WRITE_DACL | WRITE_OWNER` (no `GENERIC_ALL`) on a `user`
entry emits `GenericWrite`, `WriteOwner` and `WriteDacl` — not only
`GenericWrite`: the early stop after `GenericWrite` exists only in the
object-ACE coarse block. -/
theorem claim2_counterexample :
    has_priv 0xE0028 ACCESS_MASK.GENERIC_WRITE = true ∧
    has_priv 0xE0028 ACCESS_MASK.WRITE_DACL = true ∧
    has_priv 0xE0028 ACCESS_MASK.WRITE_OWNER = true ∧
    has_priv 0xE0028 ACCESS_MASK.GENERIC_ALL = false ∧
    processAce "user" ⟨0, 0, some (.allowed 0xE0028 sid500)⟩
      = [build_relation (sid_repr sid500) "GenericWrite" "",
         build_relation (sid_repr sid500) "WriteOwner" "",
         build_relation (sid_repr sid500) "WriteDacl" ""] ∧
    processAce "user" ⟨0, 0, some (.allowed 0xE0028 sid500)⟩
      ≠ [build_relation (sid_repr sid500) "GenericWrite" ""] :=
  ⟨by decide, by decide, by decide, by decide, by decide, by decide⟩

/-- C2 (corrected) — amended: for an evaluated allow-object (type 0x05)
ACE with no object-type restriction and mask exactly
`GENERIC_WRITE | WRITE_DACL | WRITE_OWNER`: on a `domain` entry it emits
the three edges `GenericWrite`, `WriteDacl`, `WriteOwner`; on a `user`
entry only `GenericWrite` (the early stop applies to every class other
than `domain`, within the object-ACE coarse block). -/
theorem claim2_theorem (s : LdapSid) (hs : sid_repr s ∉ ignoresids) :
    processAce "domain"
        ⟨5, 0, some (.allowedObject ⟨ACCESS_MASK.GENERIC_WRITE ||| ACCESS_MASK.WRITE_DACL
          ||| ACCESS_MASK.WRITE_OWNER, 0, [], [], s⟩)⟩
      = [build_relation (sid_repr s) "GenericWrite" "",
         build_relation (sid_repr s) "WriteDacl" "",
         build_relation (sid_repr s) "WriteOwner" ""] ∧
    processAce "user"
        ⟨5, 0, some (.allowedObject ⟨ACCESS_MASK.GENERIC_WRITE ||| ACCESS_MASK.WRITE_DACL
          ||| ACCESS_MASK.WRITE_OWNER, 0, [], [], s⟩)⟩
      = [build_relation (sid_repr s) "GenericWrite" ""] := by
  constructor <;>
  · unfold processAce
    dsimp only [AceData.sid]
    rw [if_neg (show ¬((5 : Nat) ≠ 5 ∧ (5 : Nat) ≠ 0) by simp)]
    rw [if_neg hs, if_pos rfl, if_neg (by decide : ¬((5 : Nat) = 0))]
    simp +decide [object_ace_relations, tail_rules]

/-- Witness for C2 (amended): the amended theorem at `S-1-5-21-1-2-3-500`. -/
theorem claim2_witness :
    processAce "domain"
        ⟨5, 0, some (.allowedObject ⟨ACCESS_MASK.GENERIC_WRITE ||| ACCESS_MASK.WRITE_DACL
          ||| ACCESS_MASK.WRITE_OWNER, 0, [], [], sid500⟩)⟩
      = [build_relation (sid_repr sid500) "GenericWrite" "",
         build_relation (sid_repr sid500) "WriteDacl" "",
         build_relation (sid_repr sid500) "WriteOwner" ""] ∧
    processAce "user"
        ⟨5, 0, some (.allowedObject ⟨ACCESS_MASK.GENERIC_WRITE ||| ACCESS_MASK.WRITE_DACL
          ||| ACCESS_MASK.WRITE_OWNER, 0, [], [], sid500⟩)⟩
      = [build_relation (sid_repr sid500) "GenericWrite" ""] :=
  claim2_theorem sid500 (by decide)

/-- C6 (confirmed): in a decoded object ACE body, `ObjectType` occupies a
16-byte slot at offset 8 exactly when bit 0x1 of the flags word is set
(otherwise zero bytes), `InheritedObjectType` a 16-byte slot right after
it exactly when bit 0x2 is set, and the SID is decoded immediately after
these optional slots. -/
theorem claim6_theorem (data : Bytes) (d : ObjAceData) (p : Nat)
    (h : decodeObjectBody data = some (d, p)) :
    (has_flag d.flags ACE_OBJECT_TYPE_PRESENT = true →
      d.objectType.length = 16 ∧ d.objectType = (data.drop 8).take 16) ∧
    (has_flag d.flags ACE_OBJECT_TYPE_PRESENT = false → d.objectType = []) ∧
    (has_flag d.flags ACE_INHERITED_OBJECT_TYPE_PRESENT = true →
      d.inheritedObjectType.length = 16 ∧
      d.inheritedObjectType = (data.drop (8 + d.objectType.length)).take 16) ∧
    (has_flag d.flags ACE_INHERITED_OBJECT_TYPE_PRESENT = false →
      d.inheritedObjectType = []) ∧
    decodeLdapSid data (8 + d.objectType.length + d.inheritedObjectType.length)
      = some (d.sid, p) := by
  unfold decodeObjectBody at h
  split at h
  · exact Option.noConfusion h
  rename_i mask p1 hu1
  split at h
  · exact Option.noConfusion h
  rename_i flags p2 hu2
  split at h
  · exact Option.noConfusion h
  rename_i ot p3 hr1
  split at h
  · exact Option.noConfusion h
  rename_i iot p4 hr2
  split at h
  · exact Option.noConfusion h
  rename_i sid p5 hsid
  cases h
  obtain ⟨hp1, -⟩ := u32_ok data 0 mask p1 hu1
  subst hp1
  obtain ⟨hp2, -⟩ := u32_ok data (0 + 4) flags p2 hu2
  subst hp2
  obtain ⟨hot, hotlen, hp3⟩ := readBytes_ok _ data _ ot p3 hr1
  subst hp3
  obtain ⟨hiot, hiotlen, hp4⟩ := readBytes_ok _ data _ iot p4 hr2
  subst hp4
  have hbit1 : flags &&& 1 = 0 ∨ flags &&& 1 = 1 := by
    have := Nat.and_one_is_mod flags
    omega
  have hbit2 : flags &&& 2 = 0 ∨ flags &&& 2 = 2 := by
    have h2 := Nat.and_two_pow flags 1
    cases ht : flags.testBit 1 <;> rw [ht] at h2 <;> simp at h2 <;> omega
  dsimp only
  refine ⟨?_, ?_, ?_, ?_, ?_⟩
  · intro hf
    have h1 : flags &&& 1 = 1 := by
      simpa [has_flag, ACE_OBJECT_TYPE_PRESENT] using hf
    rw [h1] at hotlen hot
    exact ⟨by simpa using hotlen, by simpa using hot⟩
  · intro hf
    have h1 : flags &&& 1 = 0 := by
      rcases hbit1 with h1 | h1
      · exact h1
      · simp [has_flag, ACE_OBJECT_TYPE_PRESENT, h1] at hf
    rw [h1] at hotlen
    simpa using List.eq_nil_of_length_eq_zero (by simpa using hotlen)
  · intro hf
    have h2 : flags &&& 2 = 2 := by
      simpa [has_flag, ACE_INHERITED_OBJECT_TYPE_PRESENT] using hf
    rw [h2] at hiotlen hiot
    refine ⟨by simpa using hiotlen, ?_⟩
    rw [hiot, hotlen]
  · intro hf
    have h2 : flags &&& 2 = 0 := by
      rcases hbit2 with h2 | h2
      · exact h2
      · simp [has_flag, ACE_INHERITED_OBJECT_TYPE_PRESENT, h2] at hf
    rw [h2] at hiotlen
    simpa using List.eq_nil_of_length_eq_zero (by simpa using hiotlen)
  · rw [hotlen, hiotlen]
    have harith : 8 + (flags &&& 1) * 16 + (flags &&& 2) * 8
        = 0 + 4 + 4 + (flags &&& 1) * 16 + (flags &&& 2) * 8 := by omega
    rw [harith]
    exact hsid

/-- Witness for C6: the fixture body with flags 3 decodes with both
16-byte GUID slots populated from offsets 8 and 24. -/
theorem claim6_witness :
    (List.replicate (16 : Nat) 7).length = 16 ∧
    List.replicate (16 : Nat) 7 = (objBodyFixture.drop 8).take 16 :=
  (claim6_theorem objBodyFixture
    ⟨0, 3, List.replicate 16 7, List.replicate 16 9, ⟨1, 0, [0, 0, 0, 0, 0, 5], []⟩⟩ 48
    (by decide)).1 (by decide)

/-- C9 (confirmed): a DACL whose declared `AceCount` (1) implies reading
past its declared tail (`AclSize = 8`, so an empty tail) fails with the
`MalformedDescriptor` error and yields no partial edge list, and the
failure is independent of whatever bytes follow in the buffer: ACE
decoding never reads beyond the declared tail. -/
theorem claim9_theorem (entry entrytype : String) (junk : Bytes) :
    parse_binary_acl entry entrytype (malAclBuf ++ junk) = .error .malformedDescriptor := by
  have h5 : readBytes 0 (malAclBuf ++ junk) 28 = some ([], 28) := by
    rw [readBytes_le 0 (malAclBuf ++ junk) 28 (by simp [malAclBuf])]
    simp
  have hacl : decodeACL (malAclBuf ++ junk) 20 = none := by
    simp only [decodeACL, decodeACLHeader_append malAclBuf junk 20 (by decide),
      show decodeACLHeader malAclBuf 20 = some ((2, 0, 8, 1, 0), 28) from by decide]
    norm_num [h5]
    rfl
  have hsd : decodeSD (malAclBuf ++ junk) = none := by
    simp only [decodeSD, decodeSDHeader_append malAclBuf junk 0 (by decide),
      show decodeSDHeader malAclBuf 0 = some (⟨1, 0, 0, 0, 0, 0, 20⟩, 20) from by decide]
    simp only [decOpt_zero, decOpt_nonzero 20 _ (by decide), hacl, Option.map_none']
  unfold parse_binary_acl
  rw [if_neg (by simp [malAclBuf])]
  rw [hsd]

/-- C10 (confirmed): a non-empty descriptor whose header has
`OffsetDacl = 0` decodes with the DACL absent, and evaluation then raises
(`AttributeError` from iterating `sd.dacl.aces`) instead of returning an
edge list. -/
theorem claim10_theorem (entry entrytype : String) (bs : Bytes) (sd : SD)
    (hne : bs ≠ []) (hdec : decodeSD bs = some sd)
    (hoff : sd.descriptor.offsetDacl = 0) :
    parse_binary_acl entry entrytype bs = .error .attributeError := by
  have hdacl : sd.dacl = none := by
    unfold decodeSD at hdec
    split at hdec
    · exact Option.noConfusion hdec
    rename_i h p hh
    split at hdec
    · exact Option.noConfusion hdec
    rename_i owner ho
    split at hdec
    · exact Option.noConfusion hdec
    rename_i group hg
    split at hdec
    · exact Option.noConfusion hdec
    rename_i sacl hsacl
    split at hdec
    · exact Option.noConfusion hdec
    rename_i dacl hd
    cases hdec
    dsimp only at hoff ⊢
    rw [hoff, decOpt_zero] at hd
    exact (Option.some.inj hd).symm
  unfold parse_binary_acl
  rw [if_neg (by simpa [List.isEmpty_iff] using hne)]
  rw [hdec]
  simp only [evalSd, hdacl]

/-- Witness for C10: a bare 20-byte header with all offsets zero. -/
theorem claim10_witness :
    parse_binary_acl "entry" "user" headerOnlyBuf = .error .attributeError :=
  claim10_theorem "entry" "user" headerOnlyBuf
    ⟨⟨1, 0, 0, 0, 0, 0, 0⟩, none, none, none, none⟩
    (by decide) (by decide) (by decide)

end Acls
